import Mathlib

/-!
Shallow embedding of the animation core of `src/script.js` — the
`AnimEngine` class (easing library, tween engine, scroll trigger) and the
`initParticles` background-particle simulation — with theorems settling the
specification claims about it.

Modelling conventions:
* JS numbers are rationals (`ℚ`); descriptor properties that may be
  `undefined` are `Option ℚ`.
* JS numeric truthiness (`undefined` and `0` are falsy) is `truthyQ`, and
  the JS idiom `v || d` on numbers is `jsOrQ`.
* The transform string built by `_animateSingle` is modelled as the list of
  its components (`TransformComp`), in the order they are appended.
* The callback-driven parts (scroll trigger, resize listener) are modelled
  as step functions on an explicit state, driven by a trace of events; the
  host delivers an intersection entry for an element only while that
  element is observed.
-/

namespace Script

/-- JS numeric truthiness of a possibly-`undefined` number: `undefined`
and `0` are falsy, every other number is truthy. -/
def truthyQ (v : Option ℚ) : Bool :=
  match v with
  | some x => x != 0
  | none => false

/-- The JS expression `v || d` for a possibly-`undefined` number `v`: the
default `d` is taken exactly when `v` is falsy (`undefined` or `0`). -/
def jsOrQ (v : Option ℚ) (d : ℚ) : ℚ :=
  match v with
  | some x => if x = 0 then d else x
  | none => d

/-! ### Easing library (`AnimEngine.easings`, script.js lines 41-50) -/

/-- `AnimEngine.easings.linear`: `t => t`. -/
def linear (t : ℚ) : ℚ := t

/-- `AnimEngine.easings.easeOutQuad`: `t => t * (2 - t)`. -/
def easeOutQuad (t : ℚ) : ℚ := t * (2 - t)

/-- `AnimEngine.easings.easeOutBack`:
`const c1 = 1.70158; const c3 = c1 + 1; 1 + c3*(t-1)^3 + c1*(t-1)^2`. -/
def easeOutBack (t : ℚ) : ℚ :=
  let c1 : ℚ := 1.70158
  let c3 : ℚ := c1 + 1
  1 + c3 * (t - 1) ^ 3 + c1 * (t - 1) ^ 2

/-- The keys of the `AnimEngine.easings` object. `easeOutExpo`
(`t === 1 ? 1 : 1 - Math.pow(2, -10 * t)`) is transcendental away from
`t = 1`, so it is identified here by name; no claim evaluates it. -/
inductive EasingId where
  | linear
  | easeOutQuad
  | easeOutBack
  | easeOutExpo
  deriving DecidableEq

/-- The property access `AnimEngine.easings[name]`: `some` for the four
keys of the table, `none` (JS `undefined`) for every other name. -/
def easingsEntry (name : String) : Option EasingId :=
  if name = "linear" then some EasingId.linear
  else if name = "easeOutQuad" then some EasingId.easeOutQuad
  else if name = "easeOutBack" then some EasingId.easeOutBack
  else if name = "easeOutExpo" then some EasingId.easeOutExpo
  else none

/-- Line 79: `AnimEngine.easings[vars.ease] || AnimEngine.easings.easeOutQuad`
(an absent `vars.ease` indexes the table at `undefined`, which also misses). -/
def resolveEasing (ease : Option String) : EasingId :=
  match ease with
  | some name => (easingsEntry name).getD EasingId.easeOutQuad
  | none => EasingId.easeOutQuad

/-! ### Tween engine (`AnimEngine.to` / `_animateSingle`, lines 57-140) -/

/-- The tween descriptor `vars` passed to `AnimEngine.to` and
`_animateSingle`; `none` models an absent (`undefined`) property. -/
structure Vars where
  x : Option ℚ := none
  y : Option ℚ := none
  opacity : Option ℚ := none
  scale : Option ℚ := none
  rotate : Option ℚ := none
  duration : Option ℚ := none
  delay : Option ℚ := none
  stagger : Option ℚ := none
  ease : Option String := none
  deriving DecidableEq

/-- Line 77: `const duration = (vars.duration || 1) * 1000`. -/
def durationMs (v : Vars) : ℚ := jsOrQ v.duration 1 * 1000

/-- Line 78: `const delay = (vars.delay || 0) * 1000`. -/
def delayMs (v : Vars) : ℚ := jsOrQ v.delay 0 * 1000

/-- Line 70 (inside `to`'s `elements.forEach((el, index) => ...)`):
`const delay = (vars.delay || 0) + (vars.stagger ? index * vars.stagger : 0)`,
in seconds. -/
def effectiveDelay (v : Vars) (index : ℕ) : ℚ :=
  jsOrQ v.delay 0 + (if truthyQ v.stagger then (index : ℚ) * v.stagger.getD 0 else 0)

/-- The per-index delays `to` hands to `_animateSingle` for `n` resolved
elements, in resolution order (index 0 first). -/
def staggeredDelays (v : Vars) (n : ℕ) : List ℚ :=
  (List.range n).map (effectiveDelay v)

/-- The five animated properties, as read/written by one tween tick
(`startState`, `endState` and `current` all have this shape). -/
structure PropState where
  opacity : ℚ
  x : ℚ
  y : ℚ
  scale : ℚ
  rotate : ℚ
  deriving DecidableEq

/-- Lines 83-87: the start state reads opacity from the computed style and
fixes the transform components at their neutral values. -/
def startStateOf (computedOpacity : ℚ) : PropState :=
  { opacity := computedOpacity, x := 0, y := 0, scale := 1, rotate := 0 }

/-- Lines 92-98: each end value is the descriptor value when defined
(`!== undefined`), else the start opacity resp. the neutral value. -/
def endStateOf (v : Vars) (s : PropState) : PropState :=
  { opacity := v.opacity.getD s.opacity
    x := v.x.getD 0
    y := v.y.getD 0
    scale := v.scale.getD 1
    rotate := v.rotate.getD 0 }

/-- Line 109: `const progress = Math.min(elapsed / duration, 1)`. -/
def progress (durMs elapsed : ℚ) : ℚ := min (elapsed / durMs) 1

/-- Lines 113-119, one property: `start + (end - start) * easeVal`. -/
def interp (startV endV easeVal : ℚ) : ℚ := startV + (endV - startV) * easeVal

/-- Lines 113-119: the `current` object of one tick. -/
def currentOf (s e : PropState) (easeVal : ℚ) : PropState :=
  { opacity := interp s.opacity e.opacity easeVal
    x := interp s.x e.x easeVal
    y := interp s.y e.y easeVal
    scale := interp s.scale e.scale easeVal
    rotate := interp s.rotate e.rotate easeVal }

/-- One property's value on a tick after the delay phase, for the easing
function the tick closed over: ease the progress, then interpolate. -/
def tickValue (easing : ℚ → ℚ) (startV endV durMs elapsed : ℚ) : ℚ :=
  interp startV endV (easing (progress durMs elapsed))

/-- A component of the transform string built on lines 125-128, carrying
the interpolated value(s) it is rendered with. -/
inductive TransformComp where
  | translate (x y : ℚ)
  | scale (s : ℚ)
  | rotate (deg : ℚ)
  deriving DecidableEq

/-- Whether a transform component is the `translate(..)` one. -/
def TransformComp.isTranslate : TransformComp → Bool
  | .translate _ _ => true
  | _ => false

/-- Whether a transform component is the `scale(..)` one. -/
def TransformComp.isScale : TransformComp → Bool
  | .scale _ => true
  | _ => false

/-- Whether a transform component is the `rotate(..)` one. -/
def TransformComp.isRotate : TransformComp → Bool
  | .rotate _ => true
  | _ => false

/-- Lines 125-128: `let transform = '';`
`if (vars.x || vars.y) transform += translate(current.x, current.y);`
`if (vars.scale !== undefined) transform += scale(current.scale);`
`if (vars.rotate !== undefined) transform += rotate(current.rotate);`
modelled as the list of appended components. -/
def buildTransform (v : Vars) (cur : PropState) : List TransformComp :=
  (if truthyQ v.x || truthyQ v.y then [TransformComp.translate cur.x cur.y] else []) ++
  (if v.scale.isSome then [TransformComp.scale cur.scale] else []) ++
  (if v.rotate.isSome then [TransformComp.rotate cur.rotate] else [])

/-- An element's inline style as the tween engine sees it: the two fields
it can write, plus all remaining style fields bundled as `rest`. -/
structure Style where
  opacity : ℚ
  transform : List TransformComp
  rest : List (String × String)
  deriving DecidableEq

/-- Lines 121-130: `if (vars.opacity !== undefined) el.style.opacity = current.opacity;`
then build the transform string and `if (transform) el.style.transform = transform;`. -/
def applyTick (v : Vars) (cur : PropState) (st : Style) : Style :=
  let st1 := if v.opacity.isSome then { st with opacity := cur.opacity } else st
  let tf := buildTransform v cur
  if tf.isEmpty then st1 else { st1 with transform := tf }

/-! ### Scroll trigger (`AnimEngine.scrollTrigger`, lines 147-163) -/

/-- The options of `scrollTrigger`; `onEnter`/`onLeave` record whether the
corresponding callback was provided. -/
structure TriggerOpts where
  onEnter : Bool := false
  onLeave : Bool := false
  once : Bool := false
  threshold : Option ℚ := none
  deriving DecidableEq

/-- Line 160: `{ threshold: options.threshold || 0.2 }`. -/
def thresholdOf (o : TriggerOpts) : ℚ := jsOrQ o.threshold 0.2

/-- One intersection entry delivered to the observer callback; elements
are identified by naturals. -/
structure Entry where
  target : ℕ
  isIntersecting : Bool
  deriving DecidableEq

/-- A callback invocation observable from `scrollTrigger`. -/
inductive Callback where
  | enter (target : ℕ)
  | leave (target : ℕ)
  deriving DecidableEq

/-- The element a callback invocation was passed. -/
def Callback.target : Callback → ℕ
  | .enter t => t
  | .leave t => t

/-- Lines 152-159, for one entry: the host delivers an entry only for a
currently observed target; if it intersects, `onEnter` fires (when given)
and, if `once`, the target is unobserved; otherwise `onLeave` fires (when
given). Returns the new observed set and the callbacks fired. -/
def stepEntry (opts : TriggerOpts) (observed : Finset ℕ) (e : Entry) :
    Finset ℕ × List Callback :=
  if e.target ∈ observed then
    if e.isIntersecting then
      (if opts.once then observed.erase e.target else observed,
       if opts.onEnter then [Callback.enter e.target] else [])
    else
      (observed, if opts.onLeave then [Callback.leave e.target] else [])
  else (observed, [])

/-- Processing a trace of intersection entries in delivery order,
accumulating the callbacks fired. -/
def runEntries (opts : TriggerOpts) (observed : Finset ℕ) :
    List Entry → Finset ℕ × List Callback
  | [] => (observed, [])
  | e :: rest =>
    let s1 := stepEntry opts observed e
    let s2 := runEntries opts s1.1 rest
    (s2.1, s1.2 ++ s2.2)

/-! ### Particle simulation (`initParticles`, lines 234-308) -/

/-- One background particle (lines 247-254): the constructor draws five
randoms in `[0, 1)` for position, velocity and size. -/
structure Particle where
  x : ℚ
  y : ℚ
  vx : ℚ
  vy : ℚ
  size : ℚ
  deriving DecidableEq

/-- Lines 248-254: `new Particle()` given the five `Math.random()` results
it consumes: `x = r0 * width`, `y = r1 * height`,
`vx = (r2 - 0.5) * 0.5`, `vy = (r3 - 0.5) * 0.5`, `size = r4 * 2`. -/
def mkParticle (width height r0 r1 r2 r3 r4 : ℚ) : Particle :=
  { x := r0 * width
    y := r1 * height
    vx := (r2 - 0.5) * 0.5
    vy := (r3 - 0.5) * 0.5
    size := r4 * 2 }

/-- Lines 258-261 for one axis: `if (coord < 0) coord = bound;`
`if (coord > bound) coord = 0;` (two sequential ifs). -/
def wrapCoord (bound v : ℚ) : ℚ :=
  let v1 := if v < 0 then bound else v
  if v1 > bound then 0 else v1

/-- Lines 255-262, `Particle.update`: advance by velocity, then wrap each
axis at the canvas bounds. -/
def updateParticle (width height : ℚ) (p : Particle) : Particle :=
  { p with
    x := wrapCoord width (p.x + p.vx)
    y := wrapCoord height (p.y + p.vy) }

/-- The closed-over state of `initParticles`: `width`, `height`,
`particles`. -/
structure SimState where
  width : ℚ
  height : ℚ
  particles : List Particle
  deriving DecidableEq

/-- Lines 242-245, the `resize` handler (also registered for every
`window` resize event on line 304): set `width`/`height` from the viewport;
nothing else. -/
def resizeHandler (vw vh : ℚ) (s : SimState) : SimState :=
  { s with width := vw, height := vh }

/-- Lines 271-274, `init`: replace `particles` with 50 freshly constructed
particles; `r` is the stream of `Math.random()` results, particle `i`
consuming `r (5*i) .. r (5*i+4)`. -/
def initPool (width height : ℚ) (r : ℕ → ℚ) : List Particle :=
  (List.range 50).map fun i =>
    mkParticle width height (r (5 * i)) (r (5 * i + 1)) (r (5 * i + 2))
      (r (5 * i + 3)) (r (5 * i + 4))

/-- Lines 305-306, the startup sequence `resize(); init();` from the
initial state (dimensions unset, empty pool). -/
def startupSim (vw vh : ℚ) (r : ℕ → ℚ) : SimState :=
  let s := resizeHandler vw vh { width := 0, height := 0, particles := [] }
  { s with particles := initPool s.width s.height r }

/-! ### Claims about the particle simulation -/

/-- C1 counterexample: a resize event (the registered `resize` handler)
recomputes the canvas dimensions but does not recreate the particle pool —
here the pool stays empty (length 0, not 50), refuting "on every canvas
resize event ... recreates the entire particle pool". -/
theorem c1_resize_event_cex :
    (resizeHandler 800 600 { width := 100, height := 100, particles := [] }).width = 800 ∧
    (resizeHandler 800 600 { width := 100, height := 100, particles := [] }).height = 600 ∧
    (resizeHandler 800 600 { width := 100, height := 100, particles := [] }).particles.length
      = 0 :=
  ⟨rfl, rfl, rfl⟩

/-- C1 (amended): at startup (`resize(); init();`) the simulation computes
the canvas dimensions from the viewport and creates a pool of exactly 50
particles, each with position uniformly inside the canvas, velocity
components in `[-0.25, 0.25)` and radius in `[0, 2)`; subsequent resize
events recompute the dimensions only and leave the particle pool
unchanged. -/
theorem c1_startup_pool (vw vh : ℚ) (r : ℕ → ℚ)
    (hr : ∀ n, 0 ≤ r n ∧ r n < 1) (hw : 0 < vw) (hh : 0 < vh) :
    (startupSim vw vh r).particles.length = 50 ∧
    (startupSim vw vh r).width = vw ∧
    (startupSim vw vh r).height = vh ∧
    (∀ p ∈ (startupSim vw vh r).particles,
      0 ≤ p.x ∧ p.x < vw ∧ 0 ≤ p.y ∧ p.y < vh ∧
      -(1 / 4) ≤ p.vx ∧ p.vx < 1 / 4 ∧ -(1 / 4) ≤ p.vy ∧ p.vy < 1 / 4 ∧
      0 ≤ p.size ∧ p.size < 2) ∧
    (∀ (vw2 vh2 : ℚ) (s : SimState), (resizeHandler vw2 vh2 s).particles = s.particles) := by
  refine ⟨?_, rfl, rfl, ?_, fun _ _ _ => rfl⟩
  · show (initPool vw vh r).length = 50
    simp [initPool]
  · intro p hp
    have hp' : p ∈ initPool vw vh r := hp
    simp only [initPool, List.mem_map, List.mem_range] at hp'
    obtain ⟨i, _, rfl⟩ := hp'
    obtain ⟨h0a, h0b⟩ := hr (5 * i)
    obtain ⟨h1a, h1b⟩ := hr (5 * i + 1)
    obtain ⟨h2a, h2b⟩ := hr (5 * i + 2)
    obtain ⟨h3a, h3b⟩ := hr (5 * i + 3)
    obtain ⟨h4a, h4b⟩ := hr (5 * i + 4)
    dsimp only [mkParticle]
    refine ⟨mul_nonneg h0a hw.le, ?_, mul_nonneg h1a hh.le, ?_,
      by norm_num; linarith, by norm_num; linarith,
      by norm_num; linarith, by norm_num; linarith,
      by linarith, by linarith⟩
    · calc r (5 * i) * vw < 1 * vw := mul_lt_mul_of_pos_right h0b hw
        _ = vw := one_mul vw
    · calc r (5 * i + 1) * vh < 1 * vh := mul_lt_mul_of_pos_right h1b hh
        _ = vh := one_mul vh

/-- Witness for C1 (amended) at a concrete viewport and random stream. -/
theorem c1_startup_pool_w :
    (startupSim 800 600 (fun _ => (1 : ℚ) / 2)).particles.length = 50 :=
  (c1_startup_pool 800 600 (fun _ => (1 : ℚ) / 2)
    (fun _ => ⟨by norm_num, by norm_num⟩) (by norm_num) (by norm_num)).1

/-- C4 counterexample: a particle at `x = width - 0.1` (width 100) moving
with the admissible velocity `vx = 0.05 > 0` ends the update step at
`x = 99.95`, still at the right edge and nowhere near 0 — so the claim's
"any vx > 0" is false. -/
theorem c4_small_velocity_cex :
    (updateParticle 100 100 { x := 999 / 10, y := 50, vx := 1 / 20, vy := 0, size := 1 }).x
      = 1999 / 20 ∧
    99 < (updateParticle 100 100
      { x := 999 / 10, y := 50, vx := 1 / 20, vy := 0, size := 1 }).x := by
  constructor <;> norm_num [updateParticle, wrapCoord]

/-- C4 (amended): each update step advances position by velocity and wraps
each axis: for a nonnegative bound the wrapped coordinate always lies in
`[0, bound]`; a coordinate that exits past the bound lands at exactly 0
and one that exits below 0 lands at exactly the bound; in particular a
particle at `x = width - 0.1` wraps to `x = 0` when `vx > 0.1` (not for
every `vx > 0`). -/
theorem c4_wraparound :
    (∀ w v : ℚ, 0 ≤ w → 0 ≤ wrapCoord w v ∧ wrapCoord w v ≤ w) ∧
    (∀ (w h : ℚ) (p : Particle), 0 ≤ w → w < p.x + p.vx → (updateParticle w h p).x = 0) ∧
    (∀ (w h : ℚ) (p : Particle), p.x + p.vx < 0 → (updateParticle w h p).x = w) ∧
    (∀ (w h : ℚ) (p : Particle), 0 ≤ w → p.x = w - 1 / 10 → 1 / 10 < p.vx →
      (updateParticle w h p).x = 0) := by
  refine ⟨?_, ?_, ?_, ?_⟩
  · intro w v hw
    simp only [wrapCoord]
    split_ifs <;> constructor <;> linarith
  · intro w h p hw hx
    show wrapCoord w (p.x + p.vx) = 0
    simp only [wrapCoord]
    split_ifs <;> first | rfl | linarith
  · intro w h p hx
    show wrapCoord w (p.x + p.vx) = w
    simp only [wrapCoord]
    split_ifs <;> first | rfl | linarith
  · intro w h p hw hx hvx
    show wrapCoord w (p.x + p.vx) = 0
    simp only [wrapCoord]
    split_ifs <;> first | rfl | linarith

/-- Witness for C4 (amended): with `vx = 0.25 > 0.1` the same particle
does wrap to exactly 0. -/
theorem c4_wraparound_w :
    (updateParticle 100 100 { x := 999 / 10, y := 50, vx := 1 / 4, vy := 0, size := 1 }).x
      = 0 :=
  c4_wraparound.2.2.2 100 100 _ (by norm_num) (by norm_num) (by norm_num)

/-! ### Claims about the transform string and style writes -/

/-- C2 counterexample: in the descriptor `{ x: 0 }` the property `x` is
requested, yet `vars.x || vars.y` is falsy, so no translate component is
produced (the transform list is empty) — refuting "appears if and only if
requested". The repository itself hits this: `to(el, { opacity: 1, x: 0 })`
on the slide-right trigger. -/
theorem c2_requested_x_zero_cex :
    ({ x := some 0 } : Vars).x ≠ none ∧
    buildTransform { x := some 0 }
      { opacity := 1, x := 0, y := 0, scale := 1, rotate := 0 } = [] := by
  refine ⟨by simp, ?_⟩
  simp [buildTransform, truthyQ]

/-- C2 (amended): the transform components appear in the fixed order
translate, scale, rotate (the built list is a sublist of that order); a
translate component appears iff `x` or `y` is truthy (present and
nonzero), while scale and rotate components appear iff the corresponding
property is present at all. -/
theorem c2_transform_components (v : Vars) (cur : PropState) :
    (buildTransform v cur).any TransformComp.isTranslate = (truthyQ v.x || truthyQ v.y) ∧
    (buildTransform v cur).any TransformComp.isScale = v.scale.isSome ∧
    (buildTransform v cur).any TransformComp.isRotate = v.rotate.isSome ∧
    List.Sublist (buildTransform v cur)
      [TransformComp.translate cur.x cur.y, TransformComp.scale cur.scale,
        TransformComp.rotate cur.rotate] := by
  have h1 : List.Sublist
      (if truthyQ v.x || truthyQ v.y then [TransformComp.translate cur.x cur.y] else [])
      [TransformComp.translate cur.x cur.y] := by
    split_ifs <;> simp
  have h2 : List.Sublist (if v.scale.isSome then [TransformComp.scale cur.scale] else [])
      [TransformComp.scale cur.scale] := by
    split_ifs <;> simp
  have h3 : List.Sublist (if v.rotate.isSome then [TransformComp.rotate cur.rotate] else [])
      [TransformComp.rotate cur.rotate] := by
    split_ifs <;> simp
  refine ⟨?_, ?_, ?_, (h1.append h2).append h3⟩ <;>
    cases hxy : truthyQ v.x || truthyQ v.y <;>
    cases hs : v.scale.isSome <;>
    cases hro : v.rotate.isSome <;>
    simp [buildTransform, hxy, hs, hro, TransformComp.isTranslate, TransformComp.isScale,
      TransformComp.isRotate]

/-- C10: one tick's style application never touches any style field other
than `opacity` and `transform`: the rest of the style is returned
unchanged, `opacity` is written (to the interpolated value) exactly when
the descriptor requests opacity, and `transform` is written (to the built
component list) exactly when that list is nonempty. -/
theorem c10_style_fields (v : Vars) (cur : PropState) (st : Style) :
    (applyTick v cur st).rest = st.rest ∧
    (v.opacity = none → (applyTick v cur st).opacity = st.opacity) ∧
    (v.opacity.isSome = true → (applyTick v cur st).opacity = cur.opacity) ∧
    (buildTransform v cur = [] → (applyTick v cur st).transform = st.transform) ∧
    (buildTransform v cur ≠ [] → (applyTick v cur st).transform = buildTransform v cur) := by
  rcases hop : v.opacity with _ | a <;>
    rcases htf : buildTransform v cur with _ | ⟨c, tf⟩ <;>
    simp [applyTick, hop, htf]

/-- Witness for C10: a tick of an empty descriptor changes nothing. -/
theorem c10_style_fields_w :
    (applyTick {} { opacity := 1, x := 0, y := 0, scale := 1, rotate := 0 }
      { opacity := 1 / 2, transform := [], rest := [("color", "red")] }).rest
      = [("color", "red")] :=
  (c10_style_fields {} { opacity := 1, x := 0, y := 0, scale := 1, rotate := 0 }
    { opacity := 1 / 2, transform := [], rest := [("color", "red")] }).1

/-! ### Claims about the scroll trigger -/

/-- Every callback fired by one entry targets that entry's element, which
was observed when it fired; and processing an entry never adds elements to
the observed set. -/
theorem stepEntry_sound (opts : TriggerOpts) (ob : Finset ℕ) (a : Entry) :
    (∀ cb ∈ (stepEntry opts ob a).2, Callback.target cb = a.target ∧ a.target ∈ ob) ∧
    ∀ x ∈ (stepEntry opts ob a).1, x ∈ ob := by
  unfold stepEntry
  split_ifs <;> simp_all [Callback.target, Finset.mem_erase]

/-- An element outside the observed set receives no callback from any
further trace and never becomes observed again. -/
theorem runEntries_avoids (opts : TriggerOpts) (e : ℕ) :
    ∀ (es : List Entry) (ob : Finset ℕ), e ∉ ob →
      e ∉ (runEntries opts ob es).1 ∧
        ∀ cb ∈ (runEntries opts ob es).2, Callback.target cb ≠ e := by
  intro es
  induction es with
  | nil =>
    intro ob h
    exact ⟨h, by simp [runEntries]⟩
  | cons a rest ih =>
    intro ob h
    have hstep := stepEntry_sound opts ob a
    have h1 : e ∉ (stepEntry opts ob a).1 := fun hmem => h (hstep.2 e hmem)
    obtain ⟨ih1, ih2⟩ := ih (stepEntry opts ob a).1 h1
    refine ⟨ih1, ?_⟩
    intro cb hcb
    rw [runEntries] at hcb
    simp only [List.mem_append] at hcb
    rcases hcb with hcb | hcb
    · obtain ⟨hcb1, hcb2⟩ := hstep.1 cb hcb
      exact fun heq => h (heq ▸ hcb1 ▸ hcb2)
    · exact ih2 cb hcb

/-- C3 (amended): with `once` set, processing a visibility-enter entry for
an observed element removes it from the observed set, and no callback —
`onEnter` or `onLeave` — ever fires for it over any further trace. (Before
its first enter, however, an observed element that reports
not-intersecting still gets `onLeave` even when `once` is set.) -/
theorem c3_once_no_more_callbacks (opts : TriggerOpts) (ob : Finset ℕ) (e : ℕ)
    (rest : List Entry) (honce : opts.once = true) :
    e ∉ (stepEntry opts ob { target := e, isIntersecting := true }).1 ∧
    ∀ cb ∈ (runEntries opts
        (stepEntry opts ob { target := e, isIntersecting := true }).1 rest).2,
      Callback.target cb ≠ e := by
  have h1 : e ∉ (stepEntry opts ob { target := e, isIntersecting := true }).1 := by
    by_cases hm : e ∈ ob
    · simp [stepEntry, hm, honce]
    · simp [stepEntry, hm]
  exact ⟨h1, (runEntries_avoids opts e rest _ h1).2⟩

/-- Witness for C3 (amended): after the enter entry, element 0 is out of
the observed set. -/
theorem c3_once_no_more_callbacks_w :
    0 ∉ (stepEntry { onEnter := true, once := true } {0}
      { target := 0, isIntersecting := true }).1 :=
  (c3_once_no_more_callbacks { onEnter := true, once := true } {0} 0
    [{ target := 0, isIntersecting := false }] rfl).1

/-- C3 counterexample: with `once` set and an `onLeave` callback given, an
observed element that reports not-intersecting (before any enter) does get
`onLeave` — so "when once is set, onLeave is never invoked" is false. -/
theorem c3_onleave_with_once_cex :
    (stepEntry { onLeave := true, once := true } {0}
      { target := 0, isIntersecting := false }).2 = [Callback.leave 0] := by
  simp [stepEntry]

/-! ### Claims about the easing library and tween arithmetic -/

/-- C7: an easing name not in the easings table, such as "bogus", misses
the lookup and the engine silently falls back to `easeOutQuad` — the same
easing a request for "easeOutQuad" resolves to, and one whose output
differs from `linear`'s — with no error raised (the resolution is a total
function). -/
theorem c7_unknown_easing_fallback :
    easingsEntry "bogus" = none ∧
    resolveEasing (some "bogus") = EasingId.easeOutQuad ∧
    resolveEasing (some "bogus") = resolveEasing (some "easeOutQuad") ∧
    ∃ t : ℚ, easeOutQuad t ≠ linear t := by
  refine ⟨rfl, rfl, rfl, ⟨1 / 2, by norm_num [easeOutQuad, linear]⟩⟩

/-- C8: `easeOutBack` equals `1 + c3*(t-1)^3 + c1*(t-1)^2` with
`c1 = 1.70158` and `c3 = c1 + 1`; it overshoots above 1 somewhere inside
`(0, 1)`, and `easeOutBack 1 = 1` exactly. -/
theorem c8_easeOutBack_overshoot :
    (∀ t : ℚ, easeOutBack t = 1 + (1.70158 + 1) * (t - 1) ^ 3 + 1.70158 * (t - 1) ^ 2) ∧
    (∃ t : ℚ, 0 < t ∧ t < 1 ∧ 1 < easeOutBack t) ∧
    easeOutBack 1 = 1 := by
  refine ⟨fun t => rfl, ⟨1 / 2, by norm_num, by norm_num, by norm_num [easeOutBack]⟩,
    by norm_num [easeOutBack]⟩

/-- C9: a falsy `vars.duration` (absent or `0`) makes `durationMs` the
default `1000` milliseconds, which is strictly positive; and for every
descriptor whatsoever the divisor `durationMs` is nonzero, so
`elapsed / duration` never divides by zero. -/
theorem c9_duration_default :
    (∀ v : Vars, v.duration = none ∨ v.duration = some 0 →
      durationMs v = 1000 ∧ 0 < durationMs v) ∧
    ∀ v : Vars, durationMs v ≠ 0 := by
  constructor
  · rintro v (h | h) <;> refine ⟨by simp [durationMs, jsOrQ, h], by simp [durationMs, jsOrQ, h]⟩
  · intro v
    rcases hv : v.duration with _ | d
    · simp [durationMs, jsOrQ, hv]
    · by_cases hd : d = 0
      · simp [durationMs, jsOrQ, hv, hd]
      · simp only [durationMs, jsOrQ, hv, if_neg hd]
        exact mul_ne_zero hd (by norm_num)

/-- Witness for C9 at a descriptor with no duration given. -/
theorem c9_duration_default_w : durationMs {} = 1000 :=
  (c9_duration_default.1 {} (Or.inl rfl)).1

/-- C5: after the delay phase, while `elapsed ≤ duration` the progress is
exactly `elapsed / duration` and the linear-eased tick value is the linear
interpolation `start + (end - start) * (elapsed / duration)`; in
particular with start 0, end 100, a 1-second descriptor duration and
linear easing, the value at elapsed 500 ms is 50 exactly. -/
theorem c5_linear_interpolation :
    (∀ startV endV d t : ℚ, 0 < d → 0 ≤ t → t ≤ d →
      tickValue linear startV endV d t = startV + (endV - startV) * (t / d)) ∧
    tickValue linear 0 100 (durationMs { duration := some 1 }) 500 = 50 := by
  constructor
  · intro s e d t hd _ htd
    unfold tickValue interp progress linear
    rw [min_eq_left ((div_le_one hd).mpr htd)]
  · norm_num [tickValue, interp, progress, linear, durationMs, jsOrQ, min_def]

/-- Witness for C5: the general tick formula applied at concrete inputs. -/
theorem c5_linear_interpolation_w :
    tickValue linear 0 100 1000 500 = 0 + (100 - 0) * (500 / 1000) :=
  c5_linear_interpolation.1 0 100 1000 500 (by norm_num) (by norm_num) (by norm_num)

/-- C6: with both a delay and a stagger given, the effective delay of the
element at index `i` is the explicit delay plus `i` times the stagger; for
3 elements, stagger 0.1 s and delay 0, index 2 starts 0.2 s late and
index 0 starts immediately. -/
theorem c6_stagger_delay :
    (∀ (d s : ℚ) (i : ℕ),
      effectiveDelay { delay := some d, stagger := some s } i = d + (i : ℚ) * s) ∧
    (staggeredDelays { delay := some 0, stagger := some (1 / 10) } 3).getD 2 0 = 1 / 5 ∧
    (staggeredDelays { delay := some 0, stagger := some (1 / 10) } 3).getD 0 0 = 0 := by
  refine ⟨?_, ?_, ?_⟩
  · intro d s i
    by_cases hd : d = 0 <;> by_cases hs : s = 0 <;>
      simp [effectiveDelay, jsOrQ, truthyQ, hd, hs]
  · norm_num [staggeredDelays, List.range_succ, List.getD_cons_succ, List.getD_cons_zero,
      effectiveDelay, jsOrQ, truthyQ]
  · norm_num [staggeredDelays, List.range_succ, List.getD_cons_succ, List.getD_cons_zero,
      effectiveDelay, jsOrQ, truthyQ]

end Script
